import Mathlib

/-!
Shallow embedding of the interview-scheduling backend
(`server.js` and the migrations module).

The database is modelled as explicit lists of rows, one list per table,
with the constraints declared by the migrations (NOT NULL, UNIQUE,
foreign keys, the CHECK on `solicitud.estado`) enforced by the insert /
update operations.  Each HTTP handler is a pure function from a database
state and a request to a new database state together with a trace of
observable events (queries, HTTP responses, email dispatch), in the
order the JavaScript code performs them.  SERIAL id generation is
modelled by per-table counters.
-/

/-- A row of the `aspirante` table (migrations: id SERIAL, nombre,
apellidos, celular, correo all NOT NULL, correo UNIQUE). -/
structure Aspirante where
  id_aspirante : Nat
  nombre : String
  apellidos : String
  celular : String
  correo : String
deriving Repr, DecidableEq

/-- A row of the `solicitud` table (id SERIAL, fecha_solicitud TIMESTAMP,
estado with a CHECK constraint, id_aspirante NOT NULL FK). -/
structure Solicitud where
  id_solicitud : Nat
  fecha_solicitud : Nat
  estado : String
  id_aspirante : Nat
deriving Repr, DecidableEq

/-- A row of the `cita` table (id SERIAL, fecha_cita and hora_cita NOT
NULL, id_solicitud NOT NULL UNIQUE FK, id_reclutador nullable FK). -/
structure Cita where
  id_cita : Nat
  fecha_cita : String
  hora_cita : String
  id_solicitud : Nat
  id_reclutador : Option Nat
deriving Repr, DecidableEq

/-- A row of the `reclutador` table. -/
structure Reclutador where
  id_reclutador : Nat
  nombre : String
  correo : String
deriving Repr, DecidableEq

/-- The persistent database state: the four tables plus the SERIAL
sequence counters. -/
structure DB where
  aspirante : List Aspirante
  solicitud : List Solicitud
  cita : List Cita
  reclutador : List Reclutador
  nextAsp : Nat
  nextSol : Nat
  nextCita : Nat
deriving Repr, DecidableEq

/-- Observable events of a handler execution, in program order.
`respond` is a response actually delivered to the caller;
`respondAttempt` is a second response attempted after headers were
already sent (it never reaches the caller). -/
inductive Event where
  | queryBegin : Event
  | queryInsert : String → Event
  | queryUpdate : String → Event
  | querySelect : String → Event
  | queryCommit : Event
  | queryRollback : Event
  | respond : Nat → Option Nat → Event
  | respondAttempt : Nat → Event
  | emailAttempt : String → Event
  | emailSent : String → Event
  | emailFailLogged : Event
  | emailSkipped : Event
  | errorLogged : Event
deriving Repr, DecidableEq

/-- Whether an event is a response actually delivered to the caller. -/
def isRespond : Event → Bool
  | .respond _ _ => true
  | _ => false

/-- The responses delivered to the caller, in order. -/
def responses (evs : List Event) : List Event := evs.filter isRespond

/-- Whether an event belongs to the email side channel. -/
def isEmailEvent : Event → Bool
  | .emailAttempt _ => true
  | .emailSent _ => true
  | .emailFailLogged => true
  | .emailSkipped => true
  | _ => false

/-- The email provider chosen at startup (server.js lines 30-112). -/
inductive EmailServiceType where
  | resend : EmailServiceType
  | smtp : EmailServiceType
  | noneSvc : EmailServiceType
deriving Repr, DecidableEq

/-- The environment variables that drive provider selection. -/
structure Env where
  RESEND_API_KEY : Option String
  EMAIL_USER : Option String
  EMAIL_PASS : Option String
deriving Repr, DecidableEq

/-- Provider selection at startup: Resend if its key is present, else
SMTP if both credentials are present (downgraded to none when the
startup `verify` fails), else none.  `smtpVerifyOk` is the outcome of
`emailService.verify`. -/
def selectEmailService (env : Env) (smtpVerifyOk : Bool) : EmailServiceType :=
  if env.RESEND_API_KEY.isSome then .resend
  else if env.EMAIL_USER.isSome && env.EMAIL_PASS.isSome then
    (if smtpVerifyOk then .smtp else .noneSvc)
  else .noneSvc

/-- Function `enviarCorreo` (server.js lines 115-144): with no provider it logs
and returns without transmitting; otherwise it attempts the send and
catches any transport failure internally, logging it.  `sendFails`
injects a transport failure.  The function never throws. -/
def enviarCorreo (svc : EmailServiceType) (sendFails : Bool) (correo : String) :
    List Event :=
  match svc with
  | .noneSvc => [.emailSkipped]
  | _ =>
    if sendFails then [.emailAttempt correo, .emailFailLogged]
    else [.emailAttempt correo, .emailSent correo]

/-- The JSON body of `POST /api/solicitudes`; absent fields are `none`
(destructuring `req.body` yields `undefined`, which pg maps to NULL). -/
structure CreateBody where
  nombre : Option String
  apellidos : Option String
  celular : Option String
  correo : Option String
  fecha_cita : Option String
  hora_cita : Option String
deriving Repr, DecidableEq

/-- Result of one handler execution: the database afterwards and the
event trace. -/
structure HandlerResult where
  db : DB
  events : List Event
deriving Repr, DecidableEq

/-- The CHECK constraint on `solicitud.estado`. -/
def estadoValido (e : String) : Bool :=
  e == "pendiente" || e == "confirmada" || e == "rechazada" || e == "cancelada"

/-- INSERT INTO aspirante: NOT NULL on every column and UNIQUE on
correo; returns the new row id. -/
def insertAspirante (db : DB) (nombre apellidos celular correo : Option String) :
    Except String (DB × Nat) :=
  match nombre, apellidos, celular, correo with
  | some n, some ap, some ce, some co =>
    if db.aspirante.any (fun a => a.correo == co) then
      .error "duplicate key value violates unique constraint aspirante_correo_key"
    else
      .ok ({ db with
              aspirante := db.aspirante ++ [⟨db.nextAsp, n, ap, ce, co⟩],
              nextAsp := db.nextAsp + 1 }, db.nextAsp)
  | _, _, _, _ => .error "null value violates not-null constraint"

/-- INSERT INTO solicitud: CHECK on estado and FK to aspirante;
returns the new row id. -/
def insertSolicitud (db : DB) (now : Nat) (estado : String) (idAsp : Nat) :
    Except String (DB × Nat) :=
  if !(estadoValido estado) then .error "check constraint violated"
  else if !(db.aspirante.any (fun a => a.id_aspirante == idAsp)) then
    .error "foreign key violation on id_aspirante"
  else
    .ok ({ db with
            solicitud := db.solicitud ++ [⟨db.nextSol, now, estado, idAsp⟩],
            nextSol := db.nextSol + 1 }, db.nextSol)

/-- INSERT INTO cita: NOT NULL on fecha/hora, FK to solicitud, UNIQUE
on id_solicitud; returns the new row id. -/
def insertCita (db : DB) (fecha hora : Option String) (idSol : Nat) :
    Except String (DB × Nat) :=
  match fecha, hora with
  | some f, some h =>
    if !(db.solicitud.any (fun s => s.id_solicitud == idSol)) then
      .error "foreign key violation on id_solicitud"
    else if db.cita.any (fun c => c.id_solicitud == idSol) then
      .error "duplicate key value violates unique constraint cita_id_solicitud_key"
    else
      .ok ({ db with
              cita := db.cita ++ [⟨db.nextCita, f, h, idSol, none⟩],
              nextCita := db.nextCita + 1 }, db.nextCita)
  | _, _ => .error "null value violates not-null constraint"

/-- Handler for `POST /api/solicitudes` (server.js lines 149-207): BEGIN; insert
aspirante, solicitud (estado 'pendiente', NOW()), cita; COMMIT; respond
201 with the new solicitud id; then fire-and-forget the reception
email.  On any query failure: ROLLBACK (restoring the pre-transaction
state), log, respond 500. -/
def createSolicitud (db : DB) (now : Nat) (b : CreateBody)
    (svc : EmailServiceType) (sendFails : Bool) : HandlerResult :=
  match insertAspirante db b.nombre b.apellidos b.celular b.correo with
  | .error _ =>
    ⟨db, [.queryBegin, .queryInsert "aspirante", .queryRollback,
          .errorLogged, .respond 500 none]⟩
  | .ok (db1, idAsp) =>
    match insertSolicitud db1 now "pendiente" idAsp with
    | .error _ =>
      ⟨db, [.queryBegin, .queryInsert "aspirante", .queryInsert "solicitud",
            .queryRollback, .errorLogged, .respond 500 none]⟩
    | .ok (db2, idSol) =>
      match insertCita db2 b.fecha_cita b.hora_cita idSol with
      | .error _ =>
        ⟨db, [.queryBegin, .queryInsert "aspirante", .queryInsert "solicitud",
              .queryInsert "cita", .queryRollback, .errorLogged,
              .respond 500 none]⟩
      | .ok (db3, _) =>
        ⟨db3, [.queryBegin, .queryInsert "aspirante", .queryInsert "solicitud",
               .queryInsert "cita", .queryCommit,
               .respond 201 (some idSol)]
              ++ enviarCorreo svc sendFails (b.correo.getD "")⟩

/-- One row of the `GET /api/solicitudes` result (server.js lines
210-236): solicitud INNER JOIN aspirante LEFT JOIN cita. -/
structure SolicitudRow where
  id_solicitud : Nat
  fecha_solicitud : Nat
  estado : String
  id_aspirante : Nat
  nombre : String
  apellidos : String
  celular : String
  correo : String
  id_cita : Option Nat
  fecha_cita : Option String
  hora_cita : Option String
deriving Repr, DecidableEq

/-- Build one joined row; `none` for the cita side of the LEFT JOIN
yields NULL appointment columns. -/
def mkRow (s : Solicitud) (a : Aspirante) : Option Cita → SolicitudRow
  | none =>
    ⟨s.id_solicitud, s.fecha_solicitud, s.estado, a.id_aspirante,
     a.nombre, a.apellidos, a.celular, a.correo, none, none, none⟩
  | some c =>
    ⟨s.id_solicitud, s.fecha_solicitud, s.estado, a.id_aspirante,
     a.nombre, a.apellidos, a.celular, a.correo,
     some c.id_cita, some c.fecha_cita, some c.hora_cita⟩

/-- The FROM/JOIN part of the listing query: for each solicitud, the
matching aspirantes (INNER JOIN) and the matching citas, or a single
NULL row when none matches (LEFT JOIN). -/
def joinRows (db : DB) : List SolicitudRow :=
  db.solicitud.flatMap (fun s =>
    (db.aspirante.filter (fun a => a.id_aspirante == s.id_aspirante)).flatMap
      (fun a =>
        match db.cita.filter (fun c => c.id_solicitud == s.id_solicitud) with
        | [] => [mkRow s a none]
        | cs => cs.map (fun c => mkRow s a (some c))))

/-- Insertion step of the ORDER BY fecha_solicitud DESC sort. -/
def insertDescRow (r : SolicitudRow) : List SolicitudRow → List SolicitudRow
  | [] => [r]
  | x :: xs =>
    if r.fecha_solicitud ≤ x.fecha_solicitud then x :: insertDescRow r xs
    else r :: x :: xs

/-- ORDER BY fecha_solicitud DESC. -/
def sortRowsDesc : List SolicitudRow → List SolicitudRow
  | [] => []
  | x :: xs => insertDescRow x (sortRowsDesc xs)

/-- Handler for `GET /api/solicitudes`: the join, ordered by submission timestamp
descending. -/
def listSolicitudes (db : DB) : List SolicitudRow :=
  sortRowsDesc (joinRows db)

/-- UPDATE solicitud SET estado = $1 WHERE id_solicitud = $2. -/
def updateSolicitudEstado (db : DB) (id : Nat) (estado : String) : DB :=
  { db with
      solicitud := db.solicitud.map (fun s =>
        if s.id_solicitud == id then { s with estado := estado } else s) }

/-- UPDATE cita SET fecha_cita = $1, hora_cita = $2 WHERE
id_solicitud = $3; a NULL value only violates NOT NULL when some row
actually matches. -/
def updateCitaFechaHora (db : DB) (id : Nat) (fecha hora : Option String) :
    Except String DB :=
  if db.cita.any (fun c => c.id_solicitud == id) then
    match fecha, hora with
    | some f, some h =>
      .ok { db with
              cita := db.cita.map (fun c =>
                if c.id_solicitud == id then
                  { c with fecha_cita := f, hora_cita := h } else c) }
    | _, _ => .error "null value violates not-null constraint"
  else .ok db

/-- The row shape of the confirm handler's read-back SELECT. -/
structure ReadbackRow where
  nombre : String
  apellidos : String
  correo : String
  fecha_cita : String
  hora_cita : String
deriving Repr, DecidableEq

/-- The read-back SELECT of the confirm handler (server.js lines
260-266): solicitud INNER JOIN aspirante INNER JOIN cita for the given
id; the handler takes `rows[0]`. -/
def confirmarReadback (db : DB) (id : Nat) : Option ReadbackRow :=
  ((db.solicitud.filter (fun s => s.id_solicitud == id)).flatMap (fun s =>
    (db.aspirante.filter (fun a => a.id_aspirante == s.id_aspirante)).flatMap
      (fun a =>
        (db.cita.filter (fun c => c.id_solicitud == s.id_solicitud)).map
          (fun c =>
            ⟨a.nombre, a.apellidos, a.correo, c.fecha_cita, c.hora_cita⟩)))).head?

/-- Handler for `PUT /api/solicitudes/:id/confirmar` (server.js lines 239-308):
BEGIN; set estado to 'confirmada'; overwrite the cita's fecha/hora;
read back aspirant and cita data; COMMIT; respond success; then build
the email body from `rows[0]`.  When the read-back found no row,
`rows[0]` is undefined and building the body throws, diverting into
the catch branch: ROLLBACK (after the COMMIT), log, and attempt a
second response on the already-responded request; no email is
attempted.  A query failure before the response rolls back and
responds 500. -/
def confirmarSolicitud (db : DB) (id : Nat) (fecha hora : Option String)
    (svc : EmailServiceType) (sendFails : Bool) : HandlerResult :=
  let db1 := updateSolicitudEstado db id "confirmada"
  match updateCitaFechaHora db1 id fecha hora with
  | .error _ =>
    ⟨db, [.queryBegin, .queryUpdate "solicitud", .queryUpdate "cita",
          .queryRollback, .errorLogged, .respond 500 none]⟩
  | .ok db2 =>
    match confirmarReadback db2 id with
    | none =>
      ⟨db2, [.queryBegin, .queryUpdate "solicitud", .queryUpdate "cita",
             .querySelect "solicitud aspirante cita", .queryCommit,
             .respond 200 none, .queryRollback, .errorLogged,
             .respondAttempt 500]⟩
    | some r =>
      ⟨db2, [.queryBegin, .queryUpdate "solicitud", .queryUpdate "cita",
             .querySelect "solicitud aspirante cita", .queryCommit,
             .respond 200 none]
            ++ enviarCorreo svc sendFails r.correo⟩

/-- Handler for `PUT /api/solicitudes/:id/rechazar` (server.js lines 311-325): a
single non-transactional UPDATE setting estado to 'rechazada', then a
success response; no existence check, no email. -/
def rechazarSolicitud (db : DB) (id : Nat) : HandlerResult :=
  ⟨updateSolicitudEstado db id "rechazada",
   [.queryUpdate "solicitud", .respond 200 none]⟩

/-- Schema state touched by the migrations module: which objects exist
and how many reclutador rows there are. -/
structure MigDB where
  aspiranteTable : Bool
  reclutadorTable : Bool
  solicitudTable : Bool
  citaTable : Bool
  indexesCreated : Bool
  viewCreated : Bool
  fnCreated : Bool
  reclutadorRows : Nat
deriving Repr, DecidableEq

/-- Queries the migrations routine executes (cleanup is tracked by
separate flags, not events). -/
inductive MigEvent where
  | selectExists : MigEvent
  | ddl : String → MigEvent
  | selectCount : MigEvent
  | insertSeed : MigEvent
deriving Repr, DecidableEq

/-- Outcome of one `runMigrations` invocation: the persistent schema
state afterwards (DDL is not transactional, so it survives a later
failure), the propagated result, the successful queries, and whether
the connection was released and the pool ended. -/
structure MigResult where
  db : MigDB
  result : Except String Unit
  events : List MigEvent
  connReleased : Bool
  poolClosed : Bool

/-- Failure injection: `failAt = some k` makes the k-th query of the
routine throw. -/
def stepFails (failAt : Option Nat) (k : Nat) : Bool := failAt == some k

/-- The try/catch body of `runMigrations` (migrations module lines
11-155) with failure injection: check whether `aspirante` exists and
return at once if so; otherwise create the four tables, the indexes,
the view, the stored function, then seed one reclutador when the table
is empty.  The catch branch rethrows the error. -/
def runMigrationsCore (db : MigDB) (failAt : Option Nat) :
    MigDB × Except String Unit × List MigEvent :=
  if stepFails failAt 0 then
    ⟨db, .error "exists check failed", []⟩
  else if db.aspiranteTable then
    ⟨db, .ok (), [.selectExists]⟩
  else if stepFails failAt 1 then
    ⟨db, .error "create aspirante failed", [.selectExists]⟩
  else
    let db1 := { db with aspiranteTable := true }
    if stepFails failAt 2 then
      ⟨db1, .error "create reclutador failed",
       [.selectExists, .ddl "aspirante"]⟩
    else
      let db2 := { db1 with reclutadorTable := true }
      if stepFails failAt 3 then
        ⟨db2, .error "create solicitud failed",
         [.selectExists, .ddl "aspirante", .ddl "reclutador"]⟩
      else
        let db3 := { db2 with solicitudTable := true }
        if stepFails failAt 4 then
          ⟨db3, .error "create cita failed",
           [.selectExists, .ddl "aspirante", .ddl "reclutador",
            .ddl "solicitud"]⟩
        else
          let db4 := { db3 with citaTable := true }
          if stepFails failAt 5 then
            ⟨db4, .error "create indexes failed",
             [.selectExists, .ddl "aspirante", .ddl "reclutador",
              .ddl "solicitud", .ddl "cita"]⟩
          else
            let db5 := { db4 with indexesCreated := true }
            if stepFails failAt 6 then
              ⟨db5, .error "create view failed",
               [.selectExists, .ddl "aspirante", .ddl "reclutador",
                .ddl "solicitud", .ddl "cita", .ddl "indexes"]⟩
            else
              let db6 := { db5 with viewCreated := true }
              if stepFails failAt 7 then
                ⟨db6, .error "create function failed",
                 [.selectExists, .ddl "aspirante", .ddl "reclutador",
                  .ddl "solicitud", .ddl "cita", .ddl "indexes",
                  .ddl "vista_solicitudes_completas"]⟩
              else
                let db7 := { db6 with fnCreated := true }
                if stepFails failAt 8 then
                  ⟨db7, .error "count reclutador failed",
                   [.selectExists, .ddl "aspirante", .ddl "reclutador",
                    .ddl "solicitud", .ddl "cita", .ddl "indexes",
                    .ddl "vista_solicitudes_completas",
                    .ddl "verificar_disponibilidad"]⟩
                else
                  let evs :=
                    [MigEvent.selectExists, .ddl "aspirante", .ddl "reclutador",
                     .ddl "solicitud", .ddl "cita", .ddl "indexes",
                     .ddl "vista_solicitudes_completas",
                     .ddl "verificar_disponibilidad", .selectCount]
                  if db7.reclutadorRows == 0 then
                    if stepFails failAt 9 then
                      ⟨db7, .error "insert seed failed", evs⟩
                    else
                      ⟨{ db7 with reclutadorRows := db7.reclutadorRows + 1 },
                       .ok (), evs ++ [.insertSeed]⟩
                  else
                    ⟨db7, .ok (), evs⟩

/-- Function `runMigrations` with failure injection: the finally branch always
releases the connection and ends the pool, whatever the try/catch body
did. -/
def runMigrationsF (db : MigDB) (failAt : Option Nat) : MigResult :=
  ⟨(runMigrationsCore db failAt).1, (runMigrationsCore db failAt).2.1,
   (runMigrationsCore db failAt).2.2, true, true⟩

/-- Function `runMigrations` without failure injection. -/
def runMigrations (db : MigDB) : MigResult := runMigrationsF db none

/-- Whether a migration query is DDL or an insert. -/
def isDdlOrInsert : MigEvent → Bool
  | .ddl _ => true
  | .insertSeed => true
  | _ => false

/-- Observable outcome of the server entry point's startup (server.js
lines 25-27 and 339-341): `runMigrations().then(log).catch(log error)`
followed unconditionally by `app.listen`. -/
structure ServerBoot where
  listening : Bool
  initErrorLogged : Bool
deriving Repr, DecidableEq

/-- Server startup given the migration outcome: a failure is caught
and logged, and the server listens regardless. -/
def serverStart (r : MigResult) : ServerBoot :=
  ⟨true, match r.result with | .ok _ => false | .error _ => true⟩

/-- Exit code of running the migrations module directly (lines
163-173): 0 on success, 1 on error. -/
def migrationsMainExitCode (r : MigResult) : Nat :=
  match r.result with | .ok _ => 0 | .error _ => 1

/-- Row-level invariants the schema constraints guarantee: unique ids,
unique cita-per-solicitud, and the two foreign keys used by the
listing query. -/
def WellFormedDB (db : DB) : Prop :=
  (db.aspirante.map (fun a => a.id_aspirante)).Nodup ∧
  (db.solicitud.map (fun s => s.id_solicitud)).Nodup ∧
  (db.cita.map (fun c => c.id_solicitud)).Nodup ∧
  (∀ s ∈ db.solicitud, ∃ a ∈ db.aspirante, a.id_aspirante = s.id_aspirante) ∧
  (∀ c ∈ db.cita, ∃ s ∈ db.solicitud, s.id_solicitud = c.id_solicitud)

/-- A sample database with one aspirant, one pending request and its
appointment, and the seed recruiter. -/
def dbEx : DB :=
  ⟨[⟨1, "Ana", "Gomez", "5551234567", "ana@x.com"⟩],
   [⟨1, 10, "pendiente", 1⟩],
   [⟨1, "2024-06-01", "10:00", 1, none⟩],
   [⟨1, "Reclutador Principal", "reclutador@empresa.com"⟩],
   2, 2, 2⟩

/-- A sample database with a second request that has no appointment
and a newer submission timestamp. -/
def dbEx2 : DB :=
  ⟨[⟨1, "Ana", "Gomez", "5551234567", "ana@x.com"⟩,
    ⟨2, "Luis", "Perez", "5559876543", "luis@x.com"⟩],
   [⟨1, 10, "pendiente", 1⟩, ⟨2, 20, "confirmada", 2⟩],
   [⟨1, "2024-06-01", "10:00", 1, none⟩],
   [⟨1, "Reclutador Principal", "reclutador@empresa.com"⟩],
   3, 3, 2⟩

/-- A fully-populated create-request body. -/
def bodyEx : CreateBody :=
  ⟨some "Luis", some "Perez", some "5559876543", some "luis@x.com",
   some "2024-06-02", some "11:00"⟩

/-- A create-request body reusing an email already present in `dbEx`. -/
def bodyDup : CreateBody :=
  ⟨some "Ana Maria", some "Gomez", some "5550000000", some "ana@x.com",
   some "2024-06-03", some "09:00"⟩

/-- A database with no schema objects yet. -/
def migFresh : MigDB := ⟨false, false, false, false, false, false, false, 0⟩

/-- A database after a completed bootstrap run. -/
def migDone : MigDB := ⟨true, true, true, true, true, true, true, 1⟩

/-- The email side channel never emits an HTTP response. -/
theorem responses_enviarCorreo (svc : EmailServiceType) (sf : Bool) (correo : String) :
    responses (enviarCorreo svc sf correo) = [] := by
  cases svc <;> cases sf <;> simp [enviarCorreo, responses, isRespond]

/-- C9: email provider selection is a fixed priority at startup —
Resend when RESEND_API_KEY is present; otherwise SMTP when EMAIL_USER
and EMAIL_PASS are both present and startup verification succeeds,
downgraded to no provider when verification fails; otherwise no
provider — and with no provider every send is a silent no-op that
transmits nothing. -/
theorem emailService_selection_priority (env : Env) (v : Bool) :
    (env.RESEND_API_KEY.isSome = true → selectEmailService env v = .resend) ∧
    (env.RESEND_API_KEY = none → env.EMAIL_USER.isSome = true →
      env.EMAIL_PASS.isSome = true → v = true →
      selectEmailService env v = .smtp) ∧
    (env.RESEND_API_KEY = none → env.EMAIL_USER.isSome = true →
      env.EMAIL_PASS.isSome = true → v = false →
      selectEmailService env v = .noneSvc) ∧
    (env.RESEND_API_KEY = none →
      (env.EMAIL_USER = none ∨ env.EMAIL_PASS = none) →
      selectEmailService env v = .noneSvc) ∧
    (∀ sf correo, enviarCorreo .noneSvc sf correo = [.emailSkipped]) := by
  refine ⟨?_, ?_, ?_, ?_, ?_⟩
  · intro h1; simp [selectEmailService, h1]
  · intro h1 h2 h3 h4; simp [selectEmailService, h1, h2, h3, h4]
  · intro h1 h2 h3 h4; simp [selectEmailService, h1, h2, h3, h4]
  · intro h1 h2; rcases h2 with h2 | h2 <;> simp [selectEmailService, h1, h2]
  · intro sf correo; rfl

/-- Witness for C9 at concrete environments. -/
theorem emailService_selection_priority_witness :
    selectEmailService ⟨some "rk", none, none⟩ true = .resend ∧
    selectEmailService ⟨none, some "u", some "p"⟩ true = .smtp ∧
    selectEmailService ⟨none, some "u", some "p"⟩ false = .noneSvc ∧
    selectEmailService ⟨none, none, none⟩ true = .noneSvc ∧
    enviarCorreo .noneSvc true "ana@x.com" = [.emailSkipped] :=
  ⟨(emailService_selection_priority ⟨some "rk", none, none⟩ true).1 rfl,
   (emailService_selection_priority ⟨none, some "u", some "p"⟩ true).2.1
     rfl rfl rfl rfl,
   (emailService_selection_priority ⟨none, some "u", some "p"⟩ false).2.2.1
     rfl rfl rfl rfl,
   (emailService_selection_priority ⟨none, none, none⟩ true).2.2.2.1
     rfl (Or.inl rfl),
   (emailService_selection_priority ⟨none, none, none⟩ true).2.2.2.2
     true "ana@x.com"⟩

/-- C6: the reject handler performs a single non-transactional update
that sets estado to 'rechazada' for every row with the given id
regardless of prior status, leaves everything else untouched, performs
no email dispatch and no existence check, and responds success even
when no row matches. -/
theorem rechazarSolicitud_behavior (db : DB) (id : Nat) :
    (∀ s ∈ db.solicitud, s.id_solicitud = id →
      ({ s with estado := "rechazada" } : Solicitud) ∈
        (rechazarSolicitud db id).db.solicitud) ∧
    (∀ s ∈ db.solicitud, s.id_solicitud ≠ id →
      s ∈ (rechazarSolicitud db id).db.solicitud) ∧
    (rechazarSolicitud db id).db.solicitud.length = db.solicitud.length ∧
    (rechazarSolicitud db id).db.aspirante = db.aspirante ∧
    (rechazarSolicitud db id).db.cita = db.cita ∧
    (rechazarSolicitud db id).db.reclutador = db.reclutador ∧
    (rechazarSolicitud db id).events =
      [.queryUpdate "solicitud", .respond 200 none] := by
  refine ⟨?_, ?_, ?_, rfl, rfl, rfl, rfl⟩
  · intro s hs hid
    simp only [rechazarSolicitud, updateSolicitudEstado]
    exact List.mem_map.mpr ⟨s, hs, by simp [hid]⟩
  · intro s hs hid
    simp only [rechazarSolicitud, updateSolicitudEstado]
    exact List.mem_map.mpr ⟨s, hs, by simp [hid]⟩
  · simp [rechazarSolicitud, updateSolicitudEstado]

/-- Witness for C6 on the sample database: the pending request is
rejected, the appointment is untouched, and the trace is a single
update plus a success response. -/
theorem rechazarSolicitud_behavior_witness :
    (⟨1, 10, "rechazada", 1⟩ : Solicitud) ∈
      (rechazarSolicitud dbEx 1).db.solicitud ∧
    (rechazarSolicitud dbEx 1).db.cita = dbEx.cita ∧
    (rechazarSolicitud dbEx 1).events =
      [.queryUpdate "solicitud", .respond 200 none] :=
  ⟨(rechazarSolicitud_behavior dbEx 1).1 ⟨1, 10, "pendiente", 1⟩ (by decide) rfl,
   (rechazarSolicitud_behavior dbEx 1).2.2.2.2.1,
   (rechazarSolicitud_behavior dbEx 1).2.2.2.2.2.2⟩

/-- C3: the bootstrapper is idempotent — when the aspirante table
already exists it performs only the existence check (no DDL, no
inserts) and succeeds, and from a fresh database two consecutive runs
succeed, leave exactly one seed reclutador row, and the second run is
a no-op after the existence check. -/
theorem runMigrations_idempotent :
    (∀ db : MigDB, db.aspiranteTable = true →
      runMigrations db = ⟨db, .ok (), [.selectExists], true, true⟩) ∧
    (∀ db : MigDB, db.aspiranteTable = false → db.reclutadorRows = 0 →
      (runMigrations db).result = .ok () ∧
      (runMigrations db).db.reclutadorRows = 1 ∧
      (runMigrations db).db.aspiranteTable = true ∧
      runMigrations (runMigrations db).db =
        ⟨(runMigrations db).db, .ok (), [.selectExists], true, true⟩ ∧
      ((runMigrations (runMigrations db).db).events.filter isDdlOrInsert) = []) := by
  constructor
  · intro db h
    simp [runMigrations, runMigrationsF, runMigrationsCore, stepFails, h]
  · intro db h1 h2
    have hrun : runMigrations db =
        ⟨{ db with
            aspiranteTable := true,
            reclutadorTable := true,
            solicitudTable := true,
            citaTable := true,
            indexesCreated := true,
            viewCreated := true,
            fnCreated := true,
            reclutadorRows := 1 },
         .ok (),
         [.selectExists, .ddl "aspirante", .ddl "reclutador",
          .ddl "solicitud", .ddl "cita", .ddl "indexes",
          .ddl "vista_solicitudes_completas",
          .ddl "verificar_disponibilidad", .selectCount, .insertSeed],
         true, true⟩ := by
      simp [runMigrations, runMigrationsF, runMigrationsCore, stepFails, h1, h2]
    rw [hrun]
    refine ⟨rfl, rfl, rfl, ?_, ?_⟩
    · simp [runMigrations, runMigrationsF, runMigrationsCore, stepFails]
    · simp [runMigrations, runMigrationsF, runMigrationsCore, stepFails, isDdlOrInsert]

/-- Witness for C3: from the fresh database, two runs leave one seed
row and the second run only performs the existence check. -/
theorem runMigrations_idempotent_witness :
    migFresh.aspiranteTable = false ∧ migFresh.reclutadorRows = 0 ∧
    (runMigrations migFresh).result = .ok () ∧
    (runMigrations migFresh).db.reclutadorRows = 1 ∧
    runMigrations (runMigrations migFresh).db =
      ⟨(runMigrations migFresh).db, .ok (), [.selectExists], true, true⟩ ∧
    ((runMigrations (runMigrations migFresh).db).events.filter isDdlOrInsert)
      = [] :=
  ⟨rfl, rfl,
   ((runMigrations_idempotent).2 migFresh rfl rfl).1,
   ((runMigrations_idempotent).2 migFresh rfl rfl).2.1,
   ((runMigrations_idempotent).2 migFresh rfl rfl).2.2.2.1,
   ((runMigrations_idempotent).2 migFresh rfl rfl).2.2.2.2⟩

/-- Counterexample for C4 as stated: even when the very first DDL step
of the bootstrapper fails (so its promise rejects with the underlying
error), the server entry point catches and logs the rejection and
`app.listen` still runs — process start does not fail. -/
theorem serverStart_listens_despite_migration_failure :
    (runMigrationsF migFresh (some 1)).result =
      .error "create aspirante failed" ∧
    serverStart (runMigrationsF migFresh (some 1)) = ⟨true, true⟩ := by
  constructor <;> rfl

/-- C4 (amended): a failure at any step the bootstrapper executes —
the existence check on any database, any of the eight DDL/count steps
of the fresh branch, or the seed insert when the reclutador table is
empty — is propagated to the caller as the underlying error; the
standalone migration entry point then exits with code 1, while the
server entry point logs the error and continues to listen; and the
connection is released and the pool closed regardless of outcome. -/
theorem runMigrations_error_propagation_cleanup
    (db : MigDB) (failAt : Option Nat) (k : Nat) :
    ((runMigrationsF db failAt).connReleased = true ∧
     (runMigrationsF db failAt).poolClosed = true) ∧
    (failAt = some k →
      (k = 0 ∨
       (db.aspiranteTable = false ∧
        ((1 ≤ k ∧ k ≤ 8) ∨ (k = 9 ∧ db.reclutadorRows = 0)))) →
      ∃ e, (runMigrationsF db failAt).result = .error e) ∧
    (∀ e, (runMigrationsF db failAt).result = .error e →
      serverStart (runMigrationsF db failAt) = ⟨true, true⟩ ∧
      migrationsMainExitCode (runMigrationsF db failAt) = 1) := by
  refine ⟨⟨rfl, rfl⟩, ?_, ?_⟩
  · intro hk hcase
    subst hk
    rcases hcase with rfl | ⟨hasp, ⟨hk1, hk8⟩ | ⟨rfl, hrows⟩⟩
    · exact ⟨"exists check failed",
        by simp [runMigrationsF, runMigrationsCore, stepFails]⟩
    · interval_cases k <;>
        simp [runMigrationsF, runMigrationsCore, stepFails, hasp]
    · exact ⟨"insert seed failed",
        by simp [runMigrationsF, runMigrationsCore, stepFails, hasp, hrows]⟩
  · intro e he
    constructor
    · simp [serverStart, he]
    · simp [migrationsMainExitCode, he]

/-- Witness for C4 at concrete failing steps: a mid-sequence DDL step,
the seed insert on a fresh database, and the existence check on an
already-bootstrapped database. -/
theorem runMigrations_error_propagation_cleanup_witness :
    ((runMigrationsF migFresh (some 3)).connReleased = true ∧
     (runMigrationsF migFresh (some 3)).poolClosed = true ∧
     (∃ e, (runMigrationsF migFresh (some 3)).result = .error e) ∧
     serverStart (runMigrationsF migFresh (some 3)) = ⟨true, true⟩ ∧
     migrationsMainExitCode (runMigrationsF migFresh (some 3)) = 1) ∧
    (∃ e, (runMigrationsF migFresh (some 9)).result = .error e) ∧
    (∃ e, (runMigrationsF migDone (some 0)).result = .error e) := by
  obtain ⟨e, he⟩ :=
    (runMigrations_error_propagation_cleanup migFresh (some 3) 3).2.1
      rfl (Or.inr ⟨rfl, Or.inl ⟨by decide, by decide⟩⟩)
  refine ⟨⟨(runMigrations_error_propagation_cleanup migFresh (some 3) 3).1.1,
           (runMigrations_error_propagation_cleanup migFresh (some 3) 3).1.2,
           ⟨e, he⟩,
           ((runMigrations_error_propagation_cleanup migFresh (some 3) 3).2.2
              e he).1,
           ((runMigrations_error_propagation_cleanup migFresh (some 3) 3).2.2
              e he).2⟩, ?_, ?_⟩
  · exact (runMigrations_error_propagation_cleanup migFresh (some 9) 9).2.1
      rfl (Or.inr ⟨rfl, Or.inr ⟨rfl, rfl⟩⟩)
  · exact (runMigrations_error_propagation_cleanup migDone (some 0) 0).2.1
      rfl (Or.inl rfl)

/-- On a fully-populated body with a fresh email (and a fresh solicitud
id for the cita UNIQUE constraint), the create handler commits and its
result is the three appended rows plus the success trace. -/
theorem createSolicitud_success_eq
    (db : DB) (now : Nat) (b : CreateBody) (svc : EmailServiceType) (sf : Bool)
    (n ap ce co f h : String)
    (hn : b.nombre = some n) (hap : b.apellidos = some ap)
    (hce : b.celular = some ce) (hco : b.correo = some co)
    (hf : b.fecha_cita = some f) (hh : b.hora_cita = some h)
    (hfresh : ∀ a ∈ db.aspirante, a.correo ≠ co)
    (hcita : ∀ c ∈ db.cita, c.id_solicitud ≠ db.nextSol) :
    createSolicitud db now b svc sf =
      ⟨{ db with
          aspirante := db.aspirante ++ [⟨db.nextAsp, n, ap, ce, co⟩],
          solicitud := db.solicitud ++ [⟨db.nextSol, now, "pendiente", db.nextAsp⟩],
          cita := db.cita ++ [⟨db.nextCita, f, h, db.nextSol, none⟩],
          nextAsp := db.nextAsp + 1,
          nextSol := db.nextSol + 1,
          nextCita := db.nextCita + 1 },
       [.queryBegin, .queryInsert "aspirante", .queryInsert "solicitud",
        .queryInsert "cita", .queryCommit, .respond 201 (some db.nextSol)]
       ++ enviarCorreo svc sf co⟩ := by
  have hany1 : db.aspirante.any (fun a => a.correo == co) = false := by
    simp only [List.any_eq_false, beq_iff_eq]
    exact hfresh
  have h1 : insertAspirante db b.nombre b.apellidos b.celular b.correo =
      .ok ({ db with
              aspirante := db.aspirante ++ [⟨db.nextAsp, n, ap, ce, co⟩],
              nextAsp := db.nextAsp + 1 }, db.nextAsp) := by
    rw [hn, hap, hce, hco]
    simp [insertAspirante, hany1]
  have hany2 : (db.aspirante ++ [(⟨db.nextAsp, n, ap, ce, co⟩ : Aspirante)]).any
      (fun a => a.id_aspirante == db.nextAsp) = true := by
    simp [List.any_append]
  have h2 : insertSolicitud
      { db with
          aspirante := db.aspirante ++ [⟨db.nextAsp, n, ap, ce, co⟩],
          nextAsp := db.nextAsp + 1 } now "pendiente" db.nextAsp =
      .ok ({ db with
              aspirante := db.aspirante ++ [⟨db.nextAsp, n, ap, ce, co⟩],
              solicitud := db.solicitud ++ [⟨db.nextSol, now, "pendiente", db.nextAsp⟩],
              nextAsp := db.nextAsp + 1,
              nextSol := db.nextSol + 1 }, db.nextSol) := by
    simp [insertSolicitud, estadoValido, hany2]
  have hany3 : db.cita.any (fun c => c.id_solicitud == db.nextSol) = false := by
    simp only [List.any_eq_false, beq_iff_eq]
    exact hcita
  have hany4 : (db.solicitud ++ [(⟨db.nextSol, now, "pendiente", db.nextAsp⟩ : Solicitud)]).any
      (fun s => s.id_solicitud == db.nextSol) = true := by
    simp [List.any_append]
  have h3 : insertCita
      { db with
          aspirante := db.aspirante ++ [⟨db.nextAsp, n, ap, ce, co⟩],
          solicitud := db.solicitud ++ [⟨db.nextSol, now, "pendiente", db.nextAsp⟩],
          nextAsp := db.nextAsp + 1,
          nextSol := db.nextSol + 1 } b.fecha_cita b.hora_cita db.nextSol =
      .ok ({ db with
              aspirante := db.aspirante ++ [⟨db.nextAsp, n, ap, ce, co⟩],
              solicitud := db.solicitud ++ [⟨db.nextSol, now, "pendiente", db.nextAsp⟩],
              cita := db.cita ++ [⟨db.nextCita, f, h, db.nextSol, none⟩],
              nextAsp := db.nextAsp + 1,
              nextSol := db.nextSol + 1,
              nextCita := db.nextCita + 1 }, db.nextCita) := by
    rw [hf, hh]
    simp [insertCita, hany3, hany4]
  rw [hco] at h1
  simp [createSolicitud, hco, h1, h2, h3]

/-- C1: for every valid create-request input on which the transaction
commits, exactly one aspirante row, one solicitud row with estado
'pendiente' referencing that aspirante, and one cita row with the
supplied date/time referencing that solicitud are persisted, and the
caller receives 201 with the new solicitud id. -/
theorem createSolicitud_persists_rows
    (db : DB) (now : Nat) (b : CreateBody) (svc : EmailServiceType) (sf : Bool)
    (n ap ce co f h : String)
    (hn : b.nombre = some n) (hap : b.apellidos = some ap)
    (hce : b.celular = some ce) (hco : b.correo = some co)
    (hf : b.fecha_cita = some f) (hh : b.hora_cita = some h)
    (hfresh : ∀ a ∈ db.aspirante, a.correo ≠ co)
    (hcita : ∀ c ∈ db.cita, c.id_solicitud ≠ db.nextSol) :
    (createSolicitud db now b svc sf).db.aspirante =
      db.aspirante ++ [⟨db.nextAsp, n, ap, ce, co⟩] ∧
    (createSolicitud db now b svc sf).db.solicitud =
      db.solicitud ++ [⟨db.nextSol, now, "pendiente", db.nextAsp⟩] ∧
    (createSolicitud db now b svc sf).db.cita =
      db.cita ++ [⟨db.nextCita, f, h, db.nextSol, none⟩] ∧
    (createSolicitud db now b svc sf).db.reclutador = db.reclutador ∧
    responses (createSolicitud db now b svc sf).events =
      [.respond 201 (some db.nextSol)] := by
  rw [createSolicitud_success_eq db now b svc sf n ap ce co f h
        hn hap hce hco hf hh hfresh hcita]
  refine ⟨rfl, rfl, rfl, rfl, ?_⟩
  have he := responses_enviarCorreo svc sf co
  simp only [responses] at he ⊢
  simp [List.filter_append, he, isRespond]

/-- Witness for C1: a fresh email on the sample database commits and
appends exactly the three rows. -/
theorem createSolicitud_persists_rows_witness :
    bodyEx.correo = some "luis@x.com" ∧
    (∀ a ∈ dbEx.aspirante, a.correo ≠ "luis@x.com") ∧
    (∀ c ∈ dbEx.cita, c.id_solicitud ≠ dbEx.nextSol) ∧
    ((createSolicitud dbEx 20 bodyEx .noneSvc false).db.aspirante =
       dbEx.aspirante ++ [⟨dbEx.nextAsp, "Luis", "Perez", "5559876543", "luis@x.com"⟩] ∧
     (createSolicitud dbEx 20 bodyEx .noneSvc false).db.solicitud =
       dbEx.solicitud ++ [⟨dbEx.nextSol, 20, "pendiente", dbEx.nextAsp⟩] ∧
     (createSolicitud dbEx 20 bodyEx .noneSvc false).db.cita =
       dbEx.cita ++ [⟨dbEx.nextCita, "2024-06-02", "11:00", dbEx.nextSol, none⟩] ∧
     (createSolicitud dbEx 20 bodyEx .noneSvc false).db.reclutador =
       dbEx.reclutador ∧
     responses (createSolicitud dbEx 20 bodyEx .noneSvc false).events =
       [.respond 201 (some dbEx.nextSol)]) :=
  ⟨rfl, by decide, by decide,
   createSolicitud_persists_rows dbEx 20 bodyEx .noneSvc false
     "Luis" "Perez" "5559876543" "luis@x.com" "2024-06-02" "11:00"
     rfl rfl rfl rfl rfl rfl (by decide) (by decide)⟩

/-- C8: in every committing create-request execution, the trace is the
transaction queries, then COMMIT, then the 201 response with the new
id, and only then the email dispatch; the email dispatch contains no
response, and a transport failure changes neither the database nor the
responses the caller sees. -/
theorem createSolicitud_response_before_email
    (db : DB) (now : Nat) (b : CreateBody) (svc : EmailServiceType)
    (n ap ce co f h : String)
    (hn : b.nombre = some n) (hap : b.apellidos = some ap)
    (hce : b.celular = some ce) (hco : b.correo = some co)
    (hf : b.fecha_cita = some f) (hh : b.hora_cita = some h)
    (hfresh : ∀ a ∈ db.aspirante, a.correo ≠ co)
    (hcita : ∀ c ∈ db.cita, c.id_solicitud ≠ db.nextSol) :
    (∀ sf, (createSolicitud db now b svc sf).events =
      [.queryBegin, .queryInsert "aspirante", .queryInsert "solicitud",
       .queryInsert "cita", .queryCommit, .respond 201 (some db.nextSol)]
      ++ enviarCorreo svc sf co) ∧
    (∀ sf, responses (createSolicitud db now b svc sf).events =
      [.respond 201 (some db.nextSol)]) ∧
    (∀ sf, responses (enviarCorreo svc sf co) = []) ∧
    (createSolicitud db now b svc true).db =
      (createSolicitud db now b svc false).db := by
  have key : ∀ sf, (createSolicitud db now b svc sf).events =
      [.queryBegin, .queryInsert "aspirante", .queryInsert "solicitud",
       .queryInsert "cita", .queryCommit, .respond 201 (some db.nextSol)]
      ++ enviarCorreo svc sf co := by
    intro sf
    rw [createSolicitud_success_eq db now b svc sf n ap ce co f h
          hn hap hce hco hf hh hfresh hcita]
  refine ⟨key, ?_, ?_, ?_⟩
  · intro sf
    rw [key sf]
    have he := responses_enviarCorreo svc sf co
    simp only [responses] at he ⊢
    simp [List.filter_append, he, isRespond]
  · intro sf
    exact responses_enviarCorreo svc sf co
  · rw [createSolicitud_success_eq db now b svc true n ap ce co f h
          hn hap hce hco hf hh hfresh hcita,
        createSolicitud_success_eq db now b svc false n ap ce co f h
          hn hap hce hco hf hh hfresh hcita]

/-- Witness for C8 on the sample database with a failing SMTP send. -/
theorem createSolicitud_response_before_email_witness :
    (∀ a ∈ dbEx.aspirante, a.correo ≠ "luis@x.com") ∧
    ((createSolicitud dbEx 20 bodyEx .smtp true).events =
       [.queryBegin, .queryInsert "aspirante", .queryInsert "solicitud",
        .queryInsert "cita", .queryCommit, .respond 201 (some dbEx.nextSol)]
       ++ enviarCorreo .smtp true "luis@x.com" ∧
     responses (createSolicitud dbEx 20 bodyEx .smtp true).events =
       [.respond 201 (some dbEx.nextSol)] ∧
     responses (enviarCorreo .smtp true "luis@x.com") = [] ∧
     (createSolicitud dbEx 20 bodyEx .smtp true).db =
       (createSolicitud dbEx 20 bodyEx .smtp false).db) :=
  ⟨by decide,
   (createSolicitud_response_before_email dbEx 20 bodyEx .smtp
      "Luis" "Perez" "5559876543" "luis@x.com" "2024-06-02" "11:00"
      rfl rfl rfl rfl rfl rfl (by decide) (by decide)).1 true,
   (createSolicitud_response_before_email dbEx 20 bodyEx .smtp
      "Luis" "Perez" "5559876543" "luis@x.com" "2024-06-02" "11:00"
      rfl rfl rfl rfl rfl rfl (by decide) (by decide)).2.1 true,
   (createSolicitud_response_before_email dbEx 20 bodyEx .smtp
      "Luis" "Perez" "5559876543" "luis@x.com" "2024-06-02" "11:00"
      rfl rfl rfl rfl rfl rfl (by decide) (by decide)).2.2.1 true,
   (createSolicitud_response_before_email dbEx 20 bodyEx .smtp
      "Luis" "Perez" "5559876543" "luis@x.com" "2024-06-02" "11:00"
      rfl rfl rfl rfl rfl rfl (by decide) (by decide)).2.2.2⟩

/-- C2: a create-request execution in which any of the three inserts
fails — in particular a duplicate aspirant email, which violates the
UNIQUE constraint — never committed, is fully rolled back (the
pre-transaction database is unchanged), and answers only a generic
500. -/
theorem createSolicitud_rollback_on_failure
    (db : DB) (now : Nat) (b : CreateBody) (svc : EmailServiceType) (sf : Bool) :
    ((∃ co, b.correo = some co ∧ ∃ a ∈ db.aspirante, a.correo = co) →
      (createSolicitud db now b svc sf).db = db ∧
      responses (createSolicitud db now b svc sf).events = [.respond 500 none] ∧
      Event.queryRollback ∈ (createSolicitud db now b svc sf).events ∧
      Event.queryCommit ∉ (createSolicitud db now b svc sf).events) ∧
    (Event.queryCommit ∉ (createSolicitud db now b svc sf).events →
      (createSolicitud db now b svc sf).db = db ∧
      responses (createSolicitud db now b svc sf).events = [.respond 500 none] ∧
      Event.queryRollback ∈ (createSolicitud db now b svc sf).events) := by
  constructor
  · rintro ⟨co, hco, a, ha, haco⟩
    have herr : ∃ e, insertAspirante db b.nombre b.apellidos b.celular b.correo =
        .error e := by
      rw [hco]
      cases hn : b.nombre with
      | none =>
        exact ⟨"null value violates not-null constraint",
               by simp [insertAspirante]⟩
      | some n =>
        cases hap : b.apellidos with
        | none =>
          exact ⟨"null value violates not-null constraint",
                 by simp [insertAspirante]⟩
        | some ap =>
          cases hce : b.celular with
          | none =>
            exact ⟨"null value violates not-null constraint",
                   by simp [insertAspirante]⟩
          | some ce =>
            have hdup : db.aspirante.any (fun x => x.correo == co) = true :=
              List.any_eq_true.mpr ⟨a, ha, by simp [haco]⟩
            exact ⟨"duplicate key value violates unique constraint aspirante_correo_key",
                   by simp [insertAspirante, hdup]⟩
    obtain ⟨e, he⟩ := herr
    refine ⟨?_, ?_, ?_, ?_⟩ <;>
      simp [createSolicitud, he, responses, isRespond]
  · intro hnc
    cases h1 : insertAspirante db b.nombre b.apellidos b.celular b.correo with
    | error e1 =>
      refine ⟨?_, ?_, ?_⟩ <;>
        simp [createSolicitud, h1, responses, isRespond]
    | ok p1 =>
      obtain ⟨db1, idAsp⟩ := p1
      cases h2 : insertSolicitud db1 now "pendiente" idAsp with
      | error e2 =>
        refine ⟨?_, ?_, ?_⟩ <;>
          simp [createSolicitud, h1, h2, responses, isRespond]
      | ok p2 =>
        obtain ⟨db2, idSol⟩ := p2
        cases h3 : insertCita db2 b.fecha_cita b.hora_cita idSol with
        | error e3 =>
          refine ⟨?_, ?_, ?_⟩ <;>
            simp [createSolicitud, h1, h2, h3, responses, isRespond]
        | ok p3 =>
          exfalso
          apply hnc
          obtain ⟨db3, idC⟩ := p3
          simp [createSolicitud, h1, h2, h3]

/-- Witness for C2: re-submitting the email already stored in the
sample database rolls back and answers 500. -/
theorem createSolicitud_rollback_on_failure_witness :
    (∃ co, bodyDup.correo = some co ∧ ∃ a ∈ dbEx.aspirante, a.correo = co) ∧
    (createSolicitud dbEx 30 bodyDup .noneSvc false).db = dbEx ∧
    responses (createSolicitud dbEx 30 bodyDup .noneSvc false).events =
      [.respond 500 none] ∧
    Event.queryRollback ∈ (createSolicitud dbEx 30 bodyDup .noneSvc false).events ∧
    Event.queryCommit ∉ (createSolicitud dbEx 30 bodyDup .noneSvc false).events :=
  have hdup : ∃ co, bodyDup.correo = some co ∧ ∃ a ∈ dbEx.aspirante, a.correo = co :=
    ⟨"ana@x.com", rfl, ⟨1, "Ana", "Gomez", "5551234567", "ana@x.com"⟩, by decide, rfl⟩
  ⟨hdup,
   ((createSolicitud_rollback_on_failure dbEx 30 bodyDup .noneSvc false).1 hdup).1,
   ((createSolicitud_rollback_on_failure dbEx 30 bodyDup .noneSvc false).1 hdup).2.1,
   ((createSolicitud_rollback_on_failure dbEx 30 bodyDup .noneSvc false).1 hdup).2.2.1,
   ((createSolicitud_rollback_on_failure dbEx 30 bodyDup .noneSvc false).1 hdup).2.2.2⟩

/-- With both body values supplied, the cita UPDATE always succeeds,
rewriting exactly the matching rows. -/
theorem updateCitaFechaHora_some_ok (db : DB) (id : Nat) (f h : String) :
    updateCitaFechaHora db id (some f) (some h) =
      .ok { db with cita := db.cita.map (fun c =>
        if c.id_solicitud == id then
          { c with fecha_cita := f, hora_cita := h } else c) } := by
  unfold updateCitaFechaHora
  split
  · rfl
  next hany =>
    have hfalse : db.cita.any (fun c => c.id_solicitud == id) = false := by
      simpa using hany
    rw [List.any_eq_false] at hfalse
    have hmap : db.cita.map (fun c =>
        if c.id_solicitud == id then
          { c with fecha_cita := f, hora_cita := h } else c) = db.cita :=
      (List.map_congr_left (fun c hcx => by simp [hfalse c hcx])).trans
        (List.map_id _)
    rw [hmap]

/-- With both body values supplied, the confirm handler's database
outcome is the two row-wise updates and the caller sees exactly one
success response, whatever the read-back finds. -/
theorem confirmarSolicitud_some_shape (db : DB) (id : Nat) (f h : String)
    (svc : EmailServiceType) (sf : Bool) :
    (confirmarSolicitud db id (some f) (some h) svc sf).db =
      { db with
          solicitud := db.solicitud.map (fun s =>
            if s.id_solicitud == id then { s with estado := "confirmada" } else s),
          cita := db.cita.map (fun c =>
            if c.id_solicitud == id then
              { c with fecha_cita := f, hora_cita := h } else c) } ∧
    responses (confirmarSolicitud db id (some f) (some h) svc sf).events =
      [.respond 200 none] := by
  have hupd := updateCitaFechaHora_some_ok
    (updateSolicitudEstado db id "confirmada") id f h
  simp only [confirmarSolicitud, hupd]
  constructor
  · split <;> rfl
  · split
    · simp [responses, isRespond]
    next r heq =>
      have he := responses_enviarCorreo svc sf r.correo
      simp only [responses] at he ⊢
      simp [List.filter_append, he, isRespond]

/-- C5: confirming a request sets every matching row's estado to
'confirmada' and overwrites the matching cita's date/time with the
supplied body values, regardless of prior status; all other rows and
tables are untouched; for an id matching no row the two updates change
nothing; and in every case the caller receives exactly one success
response. -/
theorem confirmarSolicitud_updates_and_success
    (db : DB) (id : Nat) (f h : String) (svc : EmailServiceType) (sf : Bool) :
    (∀ s ∈ db.solicitud, s.id_solicitud = id →
      ({ s with estado := "confirmada" } : Solicitud) ∈
        (confirmarSolicitud db id (some f) (some h) svc sf).db.solicitud) ∧
    (∀ c ∈ db.cita, c.id_solicitud = id →
      ({ c with fecha_cita := f, hora_cita := h } : Cita) ∈
        (confirmarSolicitud db id (some f) (some h) svc sf).db.cita) ∧
    (∀ s ∈ db.solicitud, s.id_solicitud ≠ id →
      s ∈ (confirmarSolicitud db id (some f) (some h) svc sf).db.solicitud) ∧
    (∀ c ∈ db.cita, c.id_solicitud ≠ id →
      c ∈ (confirmarSolicitud db id (some f) (some h) svc sf).db.cita) ∧
    (confirmarSolicitud db id (some f) (some h) svc sf).db.aspirante =
      db.aspirante ∧
    (confirmarSolicitud db id (some f) (some h) svc sf).db.reclutador =
      db.reclutador ∧
    ((∀ s ∈ db.solicitud, s.id_solicitud ≠ id) →
     (∀ c ∈ db.cita, c.id_solicitud ≠ id) →
      (confirmarSolicitud db id (some f) (some h) svc sf).db = db) ∧
    responses (confirmarSolicitud db id (some f) (some h) svc sf).events =
      [.respond 200 none] := by
  obtain ⟨hdb, hresp⟩ := confirmarSolicitud_some_shape db id f h svc sf
  refine ⟨?_, ?_, ?_, ?_, ?_, ?_, ?_, hresp⟩
  · intro s hs hsid
    rw [hdb]
    exact List.mem_map.mpr ⟨s, hs, by simp [hsid]⟩
  · intro c hc hcid
    rw [hdb]
    exact List.mem_map.mpr ⟨c, hc, by simp [hcid]⟩
  · intro s hs hsid
    rw [hdb]
    exact List.mem_map.mpr ⟨s, hs, by simp [hsid]⟩
  · intro c hc hcid
    rw [hdb]
    exact List.mem_map.mpr ⟨c, hc, by simp [hcid]⟩
  · rw [hdb]
  · rw [hdb]
  · intro hns hnc
    rw [hdb]
    have h1 : db.solicitud.map (fun s =>
        if s.id_solicitud == id then { s with estado := "confirmada" } else s) =
        db.solicitud :=
      (List.map_congr_left (fun s hsx => by simp [hns s hsx])).trans
        (List.map_id _)
    have h2 : db.cita.map (fun c =>
        if c.id_solicitud == id then
          { c with fecha_cita := f, hora_cita := h } else c) = db.cita :=
      (List.map_congr_left (fun c hcx => by simp [hnc c hcx])).trans
        (List.map_id _)
    rw [h1, h2]

/-- Witness for C5: confirming the existing request rewrites its state
and cita, and confirming a missing id changes nothing while still
answering success. -/
theorem confirmarSolicitud_updates_and_success_witness :
    (⟨1, 10, "confirmada", 1⟩ : Solicitud) ∈
      (confirmarSolicitud dbEx 1 (some "2024-07-01") (some "12:00")
        .noneSvc false).db.solicitud ∧
    (⟨1, "2024-07-01", "12:00", 1, none⟩ : Cita) ∈
      (confirmarSolicitud dbEx 1 (some "2024-07-01") (some "12:00")
        .noneSvc false).db.cita ∧
    responses (confirmarSolicitud dbEx 1 (some "2024-07-01") (some "12:00")
        .noneSvc false).events = [.respond 200 none] ∧
    (confirmarSolicitud dbEx 99 (some "2024-07-01") (some "12:00")
        .noneSvc false).db = dbEx ∧
    responses (confirmarSolicitud dbEx 99 (some "2024-07-01") (some "12:00")
        .noneSvc false).events = [.respond 200 none] :=
  ⟨(confirmarSolicitud_updates_and_success dbEx 1 "2024-07-01" "12:00"
      .noneSvc false).1 ⟨1, 10, "pendiente", 1⟩ (by decide) rfl,
   (confirmarSolicitud_updates_and_success dbEx 1 "2024-07-01" "12:00"
      .noneSvc false).2.1 ⟨1, "2024-06-01", "10:00", 1, none⟩ (by decide) rfl,
   (confirmarSolicitud_updates_and_success dbEx 1 "2024-07-01" "12:00"
      .noneSvc false).2.2.2.2.2.2.2,
   (confirmarSolicitud_updates_and_success dbEx 99 "2024-07-01" "12:00"
      .noneSvc false).2.2.2.2.2.2.1 (by decide) (by decide),
   (confirmarSolicitud_updates_and_success dbEx 99 "2024-07-01" "12:00"
      .noneSvc false).2.2.2.2.2.2.2⟩

/-- C10: when the confirm handler's id matches no row, the read-back
finds nothing, so after COMMIT and the success response the email-body
construction dereferences an undefined record and the catch branch
issues a ROLLBACK after the COMMIT and attempts a second response on
the already-responded request; no email event of any kind occurs, the
database is unchanged, and the caller saw only the success response. -/
theorem confirmarSolicitud_missing_id_crash_path
    (db : DB) (id : Nat) (f h : String) (svc : EmailServiceType) (sf : Bool)
    (hs : ∀ s ∈ db.solicitud, s.id_solicitud ≠ id)
    (hc : ∀ c ∈ db.cita, c.id_solicitud ≠ id) :
    confirmarSolicitud db id (some f) (some h) svc sf =
      ⟨db, [.queryBegin, .queryUpdate "solicitud", .queryUpdate "cita",
            .querySelect "solicitud aspirante cita", .queryCommit,
            .respond 200 none, .queryRollback, .errorLogged,
            .respondAttempt 500]⟩ ∧
    (∀ e ∈ (confirmarSolicitud db id (some f) (some h) svc sf).events,
      isEmailEvent e = false) ∧
    responses (confirmarSolicitud db id (some f) (some h) svc sf).events =
      [.respond 200 none] := by
  have h1 : updateSolicitudEstado db id "confirmada" = db := by
    unfold updateSolicitudEstado
    have hmap : db.solicitud.map (fun s =>
        if s.id_solicitud == id then { s with estado := "confirmada" } else s) =
        db.solicitud :=
      (List.map_congr_left (fun s hsx => by simp [hs s hsx])).trans
        (List.map_id _)
    rw [hmap]
  have h2 : updateCitaFechaHora db id (some f) (some h) = .ok db := by
    have hany : db.cita.any (fun c => c.id_solicitud == id) = false := by
      simp only [List.any_eq_false, beq_iff_eq]
      exact hc
    simp [updateCitaFechaHora, hany]
  have h3 : confirmarReadback db id = none := by
    have hfil : db.solicitud.filter (fun s => s.id_solicitud == id) = [] := by
      simp only [List.filter_eq_nil_iff, beq_iff_eq]
      exact hs
    simp [confirmarReadback, hfil]
  refine ⟨?_, ?_, ?_⟩ <;>
    simp [confirmarSolicitud, h1, h2, h3, responses, isRespond, isEmailEvent]

/-- Witness for C10 at a missing id on the sample database. -/
theorem confirmarSolicitud_missing_id_crash_path_witness :
    (∀ s ∈ dbEx.solicitud, s.id_solicitud ≠ 99) ∧
    (∀ c ∈ dbEx.cita, c.id_solicitud ≠ 99) ∧
    (confirmarSolicitud dbEx 99 (some "2024-07-01") (some "12:00") .smtp false =
      ⟨dbEx, [.queryBegin, .queryUpdate "solicitud", .queryUpdate "cita",
              .querySelect "solicitud aspirante cita", .queryCommit,
              .respond 200 none, .queryRollback, .errorLogged,
              .respondAttempt 500]⟩ ∧
     (∀ e ∈ (confirmarSolicitud dbEx 99 (some "2024-07-01") (some "12:00")
        .smtp false).events, isEmailEvent e = false) ∧
     responses (confirmarSolicitud dbEx 99 (some "2024-07-01") (some "12:00")
        .smtp false).events = [.respond 200 none]) :=
  ⟨by decide, by decide,
   confirmarSolicitud_missing_id_crash_path dbEx 99 "2024-07-01" "12:00"
     .smtp false (by decide) (by decide)⟩

/-- In a list with pairwise-distinct keys, filtering by the key of a
member yields exactly that member. -/
theorem filter_key_eq_singleton {α : Type} (key : α → Nat) (l : List α) (a : α)
    (k : Nat) (hk : key a = k) (hnd : (l.map key).Nodup) (ha : a ∈ l) :
    l.filter (fun x => key x == k) = [a] := by
  subst hk
  induction l with
  | nil => cases ha
  | cons x xs ih =>
    rw [List.map_cons, List.nodup_cons] at hnd
    obtain ⟨hx, hnd'⟩ := hnd
    rcases List.mem_cons.mp ha with rfl | ha'
    · rw [List.filter_cons]
      have hrest : xs.filter (fun y => key y == key a) = [] := by
        rw [List.filter_eq_nil_iff]
        intro y hy
        simp only [beq_iff_eq]
        intro hkey
        exact hx (hkey ▸ List.mem_map_of_mem key hy)
      simp [hrest]
    · have hcond : (key x == key a) = false := by
        rw [beq_eq_false_iff_ne]
        intro hkey
        exact hx (hkey ▸ List.mem_map_of_mem key ha')
      rw [List.filter_cons, hcond]
      simpa using ih hnd' ha'

/-- In a list with pairwise-distinct keys, at most one element matches
any given key. -/
theorem filter_key_length_le_one {α : Type} (key : α → Nat) (l : List α)
    (k : Nat) (hnd : (l.map key).Nodup) :
    (l.filter (fun x => key x == k)).length ≤ 1 := by
  induction l with
  | nil => simp
  | cons x xs ih =>
    rw [List.map_cons, List.nodup_cons] at hnd
    obtain ⟨hx, hnd'⟩ := hnd
    rw [List.filter_cons]
    by_cases hxk : (key x == k) = true
    · have hrest : xs.filter (fun y => key y == k) = [] := by
        rw [List.filter_eq_nil_iff]
        intro y hy
        simp only [beq_iff_eq] at hxk ⊢
        intro hyk
        apply hx
        have hmem := List.mem_map_of_mem key hy
        rwa [hyk, ← hxk] at hmem
      simp [hxk, hrest]
    · simp only [hxk]
      simpa using ih hnd'

/-- A flatMap whose function yields singletons projects like a map. -/
theorem flatMap_units_map {α β : Type} (g : α → List β) (proj : β → Nat)
    (f : α → Nat) (l : List α)
    (hg : ∀ x ∈ l, ∃ r, g x = [r] ∧ proj r = f x) :
    (l.flatMap g).map proj = l.map f := by
  induction l with
  | nil => rfl
  | cons x xs ih =>
    obtain ⟨r, hr, hrf⟩ := hg x (List.mem_cons_self x xs)
    rw [List.flatMap_cons, List.map_append, hr,
        ih (fun y hy => hg y (List.mem_cons_of_mem x hy))]
    simp [hrf]

/-- Under the schema invariants, the join contributes exactly one row
per solicitud. -/
theorem joinRows_unit (db : DB)
    (hasp : (db.aspirante.map (fun a => a.id_aspirante)).Nodup)
    (hcit : (db.cita.map (fun c => c.id_solicitud)).Nodup)
    (s : Solicitud) (a : Aspirante) (ha : a ∈ db.aspirante)
    (haid : a.id_aspirante = s.id_aspirante) :
    ∃ r : SolicitudRow,
      ((db.aspirante.filter (fun x => x.id_aspirante == s.id_aspirante)).flatMap
        (fun a2 =>
          match db.cita.filter (fun c => c.id_solicitud == s.id_solicitud) with
          | [] => [mkRow s a2 none]
          | cs => cs.map (fun c => mkRow s a2 (some c)))) = [r] ∧
      r.id_solicitud = s.id_solicitud := by
  have hfa : db.aspirante.filter (fun x => x.id_aspirante == s.id_aspirante)
      = [a] :=
    filter_key_eq_singleton (fun x => x.id_aspirante)
      db.aspirante a s.id_aspirante haid hasp ha
  have hlen := filter_key_length_le_one (fun c => c.id_solicitud)
    db.cita s.id_solicitud hcit
  rw [hfa]
  cases hcf : db.cita.filter (fun c => c.id_solicitud == s.id_solicitud) with
  | nil => exact ⟨mkRow s a none, by simp, rfl⟩
  | cons c cs =>
    have hcs : cs = [] := by
      rw [hcf] at hlen
      cases cs with
      | nil => rfl
      | cons d ds => simp at hlen
    subst hcs
    exact ⟨mkRow s a (some c), by simp, rfl⟩

/-- Under the schema invariants, the joined ids are exactly the
solicitud ids in table order. -/
theorem joinRows_map_id (db : DB) (hWF : WellFormedDB db) :
    (joinRows db).map (fun r => r.id_solicitud) =
      db.solicitud.map (fun s => s.id_solicitud) := by
  obtain ⟨hasp, hsol, hcit, hfk1, hfk2⟩ := hWF
  unfold joinRows
  apply flatMap_units_map
  intro s hs
  obtain ⟨a, ha, haid⟩ := hfk1 s hs
  exact joinRows_unit db hasp hcit s a ha haid

/-- Inserting into a descending list permutes consing. -/
theorem insertDescRow_perm (r : SolicitudRow) (l : List SolicitudRow) :
    (insertDescRow r l).Perm (r :: l) := by
  induction l with
  | nil => exact List.Perm.refl _
  | cons x xs ih =>
    rw [insertDescRow]
    split
    · exact (ih.cons x).trans (List.Perm.swap r x xs)
    · exact List.Perm.refl _

/-- The descending sort is a permutation. -/
theorem sortRowsDesc_perm (l : List SolicitudRow) : (sortRowsDesc l).Perm l := by
  induction l with
  | nil => exact List.Perm.refl _
  | cons x xs ih => exact (insertDescRow_perm x (sortRowsDesc xs)).trans (ih.cons x)

/-- Members of an insertion are the inserted row or old members. -/
theorem mem_insertDescRow {y r : SolicitudRow} {l : List SolicitudRow}
    (hy : y ∈ insertDescRow r l) : y = r ∨ y ∈ l := by
  have hmem := (insertDescRow_perm r l).mem_iff.mp hy
  simpa using hmem

/-- Insertion preserves the descending invariant. -/
theorem insertDescRow_pairwise (r : SolicitudRow) (l : List SolicitudRow)
    (hl : List.Pairwise (fun a b => b.fecha_solicitud ≤ a.fecha_solicitud) l) :
    List.Pairwise (fun a b => b.fecha_solicitud ≤ a.fecha_solicitud)
      (insertDescRow r l) := by
  induction l with
  | nil => simp [insertDescRow]
  | cons x xs ih =>
    rw [List.pairwise_cons] at hl
    obtain ⟨hx, hxs⟩ := hl
    rw [insertDescRow]
    split
    next hle =>
      rw [List.pairwise_cons]
      refine ⟨?_, ih hxs⟩
      intro y hy
      rcases mem_insertDescRow hy with rfl | hy'
      · exact hle
      · exact hx y hy'
    next hgt =>
      rw [List.pairwise_cons]
      refine ⟨?_, List.pairwise_cons.mpr ⟨hx, hxs⟩⟩
      intro y hy
      rcases List.mem_cons.mp hy with rfl | hy'
      · exact Nat.le_of_lt (Nat.lt_of_not_le hgt)
      · exact Nat.le_trans (hx y hy') (Nat.le_of_lt (Nat.lt_of_not_le hgt))

/-- The sort output is descending in fecha_solicitud. -/
theorem sortRowsDesc_pairwise (l : List SolicitudRow) :
    List.Pairwise (fun a b => b.fecha_solicitud ≤ a.fecha_solicitud)
      (sortRowsDesc l) := by
  induction l with
  | nil => simp [sortRowsDesc]
  | cons x xs ih => exact insertDescRow_pairwise x (sortRowsDesc xs) ih

/-- C7: under the schema constraints the listing returns every request
exactly once (its ids are a permutation of the solicitud table's ids —
nothing excluded, nothing duplicated), a request with no appointment
still appears with NULL appointment columns, and the result is ordered
by submission timestamp descending. -/
theorem listSolicitudes_complete_sorted (db : DB) (hWF : WellFormedDB db) :
    ((listSolicitudes db).map (fun r => r.id_solicitud)).Perm
      (db.solicitud.map (fun s => s.id_solicitud)) ∧
    (∀ s ∈ db.solicitud, (∀ c ∈ db.cita, c.id_solicitud ≠ s.id_solicitud) →
      ∃ r ∈ listSolicitudes db, r.id_solicitud = s.id_solicitud ∧
        r.id_cita = none ∧ r.fecha_cita = none ∧ r.hora_cita = none) ∧
    List.Pairwise (fun a b => b.fecha_solicitud ≤ a.fecha_solicitud)
      (listSolicitudes db) := by
  refine ⟨?_, ?_, sortRowsDesc_pairwise _⟩
  · have hperm : (listSolicitudes db).Perm (joinRows db) := sortRowsDesc_perm _
    exact (hperm.map _).trans (List.Perm.of_eq (joinRows_map_id db hWF))
  · intro s hs hnoc
    obtain ⟨hasp, hsol, hcit, hfk1, hfk2⟩ := hWF
    obtain ⟨a, ha, haid⟩ := hfk1 s hs
    have hfa : db.aspirante.filter (fun x => x.id_aspirante == s.id_aspirante)
        = [a] :=
      filter_key_eq_singleton (fun x => x.id_aspirante)
        db.aspirante a s.id_aspirante haid hasp ha
    have hcf : db.cita.filter (fun c => c.id_solicitud == s.id_solicitud)
        = [] := by
      rw [List.filter_eq_nil_iff]
      intro c hc
      simp only [beq_iff_eq]
      exact hnoc c hc
    have hmem : mkRow s a none ∈ joinRows db := by
      unfold joinRows
      refine List.mem_flatMap.mpr ⟨s, hs, ?_⟩
      rw [hfa]
      simp [hcf]
    exact ⟨mkRow s a none,
           (sortRowsDesc_perm (joinRows db)).mem_iff.mpr hmem,
           rfl, rfl, rfl, rfl⟩

/-- Witness for C7 on the two-request sample: the ids come back as a
permutation, the appointment-less request appears with NULL columns,
and the output is sorted newest first. -/
theorem listSolicitudes_complete_sorted_witness :
    WellFormedDB dbEx2 ∧
    ((listSolicitudes dbEx2).map (fun r => r.id_solicitud)).Perm
      (dbEx2.solicitud.map (fun s => s.id_solicitud)) ∧
    (∃ r ∈ listSolicitudes dbEx2, r.id_solicitud = 2 ∧
      r.id_cita = none ∧ r.fecha_cita = none ∧ r.hora_cita = none) ∧
    List.Pairwise (fun a b => b.fecha_solicitud ≤ a.fecha_solicitud)
      (listSolicitudes dbEx2) :=
  have hWF : WellFormedDB dbEx2 := by unfold WellFormedDB; decide
  ⟨hWF,
   (listSolicitudes_complete_sorted dbEx2 hWF).1,
   (listSolicitudes_complete_sorted dbEx2 hWF).2.1
     ⟨2, 20, "confirmada", 2⟩ (by decide) (by decide),
   (listSolicitudes_complete_sorted dbEx2 hWF).2.2⟩
